import Mathlib

/-!
Verification of the nRF8001 ACI transport layer (`hal_aci_tl.c` / `hal_aci_tl.h`).

The embedding models:
  * `hal_aci_data_t` — status byte plus a 32-byte buffer (`HAL_ACI_MAX_LENGTH + 1`);
    buffers are `List Nat` and reads use `getD _ 0`; a separate checked variant of the
    SPI transfer uses `Option`-returning indexing to expose out-of-bounds reads.
  * the two ACI queues — `aci_queue.c` is not part of the sources, so the queue
    operations are modelled from the spec (bounded FIFO, capacity 4).
  * the SPI bus — the peer is a list of bytes it will answer with, consumed in order
    by successive `m_spi_readwrite` calls; each call also emits a trace event.
  * the RDYN input (`PIND & _BV(PD3)`) — a boolean parameter `rdyn_high`
    (high = peripheral not ready); the REQN output (`PORTB` bit `PB2`) — a boolean
    `reqn_low` in the state (low = request asserted).
  * observable actions (line writes, byte exchanges, inbound enqueues, entry into
    `m_aci_event_check`) are recorded in an event trace so that ordering and
    frame-effect properties can be stated.

Uninitialized C stack memory (the placeholder packet's bytes past `buffer[0]`, and
the bytes of `received_data` the transfer does not write) is modelled as zero.
-/

/-- `HAL_ACI_MAX_LENGTH` from `hal_aci_tl.h`. -/
def HAL_ACI_MAX_LENGTH : Nat := 31

/-- Capacity of each ACI queue. Modelled from the spec: `aci_queue.c` is not among
the sources; the spec's scenario "queue capacity 4, inbound queue filled to
capacity" fixes the capacity of the bounded FIFO at 4. -/
def ACI_QUEUE_SIZE : Nat := 4

/-- `hal_aci_data_t`: a status byte followed by a `HAL_ACI_MAX_LENGTH + 1`-byte
buffer whose first byte is the length byte. -/
structure hal_aci_data_t where
  status_byte : Nat
  buffer : List Nat
  deriving Repr, DecidableEq

/-- Read a byte of a packet buffer the way C array indexing does inside the
driver; an index the buffer does not reach yields 0 (the checked transfer
variant `m_aci_spi_transfer_checked` models such reads as out-of-bounds). -/
def bufGet (b : List Nat) (i : Nat) : Nat := b.getD i 0

/-- Observable actions of the transport layer, in program order. `checkRun` is a
pure marker recording that `m_aci_event_check` was entered; it mutates nothing. -/
inductive TLEvent where
  | reqnEnable
  | reqnDisable
  | spiByte (sent recv : Nat)
  | rxEnqueue (p : hal_aci_data_t)
  | checkRun
  deriving Repr, DecidableEq

/-- Whether an event is a byte exchange on the serial bus. -/
def TLEvent.isSpiByte : TLEvent → Bool
  | .spiByte _ _ => true
  | _ => false

/-- Whether an event is an enqueue into the inbound queue. -/
def TLEvent.isRxEnqueue : TLEvent → Bool
  | .rxEnqueue _ => true
  | _ => false

/-- Modelled from the spec: `aci_queue_is_full` — pure predicate, true when
`count = capacity`. -/
def aci_queue_is_full (q : List hal_aci_data_t) : Bool :=
  ACI_QUEUE_SIZE ≤ q.length

/-- Modelled from the spec: `aci_queue_is_empty` — pure predicate. -/
def aci_queue_is_empty (q : List hal_aci_data_t) : Bool :=
  q.isEmpty

/-- Modelled from the spec: `aci_queue_enqueue` — copies the packet into the next
free slot when `count < capacity`; fails leaving the queue unchanged when full. -/
def aci_queue_enqueue (q : List hal_aci_data_t) (p : hal_aci_data_t) :
    Option (List hal_aci_data_t) :=
  if q.length < ACI_QUEUE_SIZE then some (q ++ [p]) else none

/-- Modelled from the spec: `aci_queue_dequeue` — copies out the head slot when
`count > 0`; fails leaving the queue unchanged when empty. -/
def aci_queue_dequeue (q : List hal_aci_data_t) :
    Option (hal_aci_data_t × List hal_aci_data_t) :=
  match q with
  | [] => none
  | p :: rest => some (p, rest)

/-- State owned by the transport layer: the two queues `aci_tx_q`/`aci_rx_q` and
the REQN output line (`reqn_low = true` means the request line is asserted). -/
structure TLState where
  tx_q : List hal_aci_data_t
  rx_q : List hal_aci_data_t
  reqn_low : Bool
  deriving Repr, DecidableEq

/-- The raw `max_bytes` computed by `m_aci_spi_transfer` before the clamp
(lines 130–140): if the outgoing length byte is 0, the peer-declared length;
otherwise the larger of the peer-declared length and the outgoing length minus
one (one command byte already sent). -/
def m_max_bytes_raw (L1 L2 : Nat) : Nat :=
  if L1 = 0 then L2
  else if L2 > L1 - 1 then L2 else L1 - 1

/-- `max_bytes` after the clamp to `HAL_ACI_MAX_LENGTH` (lines 142–145). -/
def m_max_bytes (L1 L2 : Nat) : Nat :=
  if m_max_bytes_raw L1 L2 > HAL_ACI_MAX_LENGTH then HAL_ACI_MAX_LENGTH
  else m_max_bytes_raw L1 L2

/-- Result of `m_aci_spi_transfer`: the packet written through `received_data`,
the `(sent, received)` byte pairs of the transmit/receive loop, the indices read
from `data_to_send->buffer`, the event trace, and the boolean return value. -/
structure TransferOut where
  received_data : hal_aci_data_t
  pairs : List (Nat × Nat)
  readIdx : List Nat
  trace : List TLEvent
  ret : Bool
  deriving Repr, DecidableEq

/-- `m_aci_spi_transfer` (lines 117–157). Asserts REQN; exchanges the length
byte for the peer's status byte and `buffer[1]` for the peer-declared length
(stored unclamped into `received_data->buffer[0]`); computes `max_bytes`; runs
the transmit/receive loop (`byte_sent_cnt` has reached 2, so iteration `i`
sends `data_to_send->buffer[2 + i]` and stores the received byte into
`received_data->buffer[1 + i]`); deasserts REQN; returns `max_bytes > 0`.
`peer` is the byte stream the slave answers with, in exchange order. -/
def m_aci_spi_transfer (data_to_send : hal_aci_data_t) (peer : List Nat) :
    TransferOut :=
  let status := peer.getD 0 0
  let L2 := peer.getD 1 0
  let L1 := bufGet data_to_send.buffer 0
  let max_bytes := m_max_bytes L1 L2
  let pairs := (List.range max_bytes).map
    (fun i => (bufGet data_to_send.buffer (2 + i), peer.getD (2 + i) 0))
  let rbuf := L2 :: pairs.map Prod.snd ++
    List.replicate (HAL_ACI_MAX_LENGTH - max_bytes) 0
  { received_data := { status_byte := status, buffer := rbuf }
    pairs := pairs
    readIdx := List.range (2 + max_bytes)
    trace := [TLEvent.reqnEnable,
              TLEvent.spiByte (bufGet data_to_send.buffer 0) status,
              TLEvent.spiByte (bufGet data_to_send.buffer 1) L2] ++
             pairs.map (fun q => TLEvent.spiByte q.1 q.2) ++
             [TLEvent.reqnDisable]
    ret := decide (0 < max_bytes) }

/-- The sequence of reads `data_to_send->buffer[byte_sent_cnt++]` performs, each
through `Option`-returning indexing: `none` as soon as a read falls outside the
buffer. `start` is the current `byte_sent_cnt`, the second argument the number
of reads left. -/
def readLoopChecked (buf : List Nat) (start : Nat) : Nat → Option (List Nat)
  | 0 => some []
  | n + 1 =>
    match buf.get? start with
    | none => none
    | some b =>
      match readLoopChecked buf (start + 1) n with
      | none => none
      | some rest => some (b :: rest)

/-- `m_aci_spi_transfer` with every read of `data_to_send->buffer` performed
through `Option`-returning indexing: the list of bytes put on the bus, or
`none` when some read is out of bounds. The reads are `buffer[0]`, `buffer[1]`,
then `buffer[2 + i]` for each of the `max_bytes` loop iterations. -/
def m_aci_spi_transfer_checked (data_to_send : hal_aci_data_t)
    (peer : List Nat) : Option (List Nat) :=
  readLoopChecked data_to_send.buffer 0
    (2 + m_max_bytes (bufGet data_to_send.buffer 0) (peer.getD 1 0))

/-- The all-zero placeholder sent when the outbound queue is empty
(`m_aci_event_check` lines 68–73 set `status_byte = 0` and `buffer[0] = 0`;
the remaining stack bytes are modelled as zero). -/
def emptyPlaceholder : hal_aci_data_t :=
  ⟨0, List.replicate (HAL_ACI_MAX_LENGTH + 1) 0⟩

/-- The outbound queue after the dequeue at the top of `m_aci_event_check`
(lines 68–73): the tail on success, the queue unchanged on failure. -/
def txAfterDequeue (q : List hal_aci_data_t) : List hal_aci_data_t :=
  match aci_queue_dequeue q with
  | some pr => pr.2
  | none => q

/-- The packet `m_aci_event_check` sends: the dequeued head, or the empty
placeholder when the outbound queue was empty. -/
def dequeuedOrPlaceholder (q : List hal_aci_data_t) : hal_aci_data_t :=
  match aci_queue_dequeue q with
  | some pr => pr.1
  | none => emptyPlaceholder

/-- Result of `m_aci_event_check`: the new state, the event trace, and whether
the fatal `while(1)` branch was reached. -/
structure CheckResult where
  st : TLState
  trace : List TLEvent
  halted : Bool
  deriving Repr, DecidableEq

/-- `m_aci_event_check` (lines 43–98). Returns immediately when the inbound
queue is full; when RDYN is high, re-asserts REQN if the outbound queue is
non-empty and returns; otherwise dequeues the next outbound packet (or the
empty placeholder), runs the SPI transfer, re-asserts REQN when there is still
something to send and room to receive, and enqueues a non-empty received packet
into the inbound queue — reaching the `while(1)` loop if that enqueue fails. -/
def m_aci_event_check (st : TLState) (rdyn_high : Bool) (peer : List Nat) :
    CheckResult :=
  if aci_queue_is_full st.rx_q then
    ⟨st, [TLEvent.checkRun], false⟩
  else if rdyn_high then
    if !aci_queue_is_empty st.tx_q then
      ⟨{ st with reqn_low := true }, [TLEvent.checkRun, TLEvent.reqnEnable], false⟩
    else
      ⟨st, [TLEvent.checkRun], false⟩
  else
    let data_to_send := dequeuedOrPlaceholder st.tx_q
    let tx1 := txAfterDequeue st.tx_q
    let tr := m_aci_spi_transfer data_to_send peer
    let pipeline := !aci_queue_is_full st.rx_q && !aci_queue_is_empty tx1
    let ev2 : List TLEvent := if pipeline then [TLEvent.reqnEnable] else []
    let st2 : TLState := ⟨tx1, st.rx_q, pipeline⟩
    if 0 < bufGet tr.received_data.buffer 0 then
      match aci_queue_enqueue st2.rx_q tr.received_data with
      | some rx2 =>
        ⟨{ st2 with rx_q := rx2 },
         TLEvent.checkRun :: tr.trace ++ ev2 ++ [TLEvent.rxEnqueue tr.received_data],
         false⟩
      | none =>
        ⟨st2, TLEvent.checkRun :: tr.trace ++ ev2, true⟩
    else
      ⟨st2, TLEvent.checkRun :: tr.trace ++ ev2, false⟩

/-- Result of a public entry point returning `bool`. -/
structure SendResult where
  st : TLState
  trace : List TLEvent
  ret : Bool
  deriving Repr, DecidableEq

/-- `hal_aci_tl_send` (lines 191–212). Rejects packets whose length byte exceeds
`HAL_ACI_MAX_LENGTH`; otherwise enqueues into the outbound queue and, on
success, asserts REQN when the inbound queue has room. -/
def hal_aci_tl_send (st : TLState) (p_aci_cmd : hal_aci_data_t) : SendResult :=
  let length := bufGet p_aci_cmd.buffer 0
  if HAL_ACI_MAX_LENGTH < length then
    ⟨st, [], false⟩
  else
    match aci_queue_enqueue st.tx_q p_aci_cmd with
    | none => ⟨st, [], false⟩
    | some tx1 =>
      if !aci_queue_is_full st.rx_q then
        ⟨⟨tx1, st.rx_q, true⟩, [TLEvent.reqnEnable], true⟩
      else
        ⟨⟨tx1, st.rx_q, st.reqn_low⟩, [], true⟩

/-- Result of `hal_aci_tl_event_get`: state, trace, and the dequeued packet
(`none` models the `false` return). -/
structure GetResult where
  st : TLState
  trace : List TLEvent
  ret : Option hal_aci_data_t
  deriving Repr, DecidableEq

/-- The dequeue phase of `hal_aci_tl_event_get` (lines 225–236): dequeue from
the inbound queue; on success, assert REQN when the inbound queue is no longer
full and the outbound queue is non-empty; on failure return `false` having
done nothing. -/
def event_get_dequeue (st1 : TLState) : GetResult :=
  match aci_queue_dequeue st1.rx_q with
  | none => ⟨st1, [], none⟩
  | some pr =>
    if !aci_queue_is_full pr.2 && !aci_queue_is_empty st1.tx_q then
      ⟨⟨st1.tx_q, pr.2, true⟩, [TLEvent.reqnEnable], some pr.1⟩
    else
      ⟨⟨st1.tx_q, pr.2, st1.reqn_low⟩, [], some pr.1⟩

/-- `hal_aci_tl_event_get` (lines 214–237): runs `m_aci_event_check` when the
inbound queue is not full, then the dequeue phase. (The C local `was_full` is
computed but never used.) -/
def hal_aci_tl_event_get (st : TLState) (rdyn_high : Bool) (peer : List Nat) :
    GetResult :=
  let c : TLState × List TLEvent :=
    if !aci_queue_is_full st.rx_q then
      let r := m_aci_event_check st rdyn_high peer
      (r.st, r.trace)
    else (st, [])
  let g := event_get_dequeue c.1
  ⟨g.st, c.2 ++ g.trace, g.ret⟩

/-! ### Helper lemmas -/

/-- The clamped `max_bytes` in closed form. -/
theorem m_max_bytes_eq (L1 L2 : Nat) :
    m_max_bytes L1 L2 = min (max L2 (L1 - 1)) HAL_ACI_MAX_LENGTH := by
  simp only [m_max_bytes, m_max_bytes_raw, HAL_ACI_MAX_LENGTH]
  split_ifs <;> omega

/-- Enqueueing into a queue that is not full succeeds. -/
theorem enqueue_not_full (q : List hal_aci_data_t) (p : hal_aci_data_t)
    (h : aci_queue_is_full q = false) :
    aci_queue_enqueue q p = some (q ++ [p]) := by
  simp only [aci_queue_is_full, decide_eq_false_iff_not, not_le] at h
  unfold aci_queue_enqueue
  rw [if_pos h]

/-- Counting with an always-true predicate counts every element. -/
theorem countP_const_true {α : Type} (l : List α) (p : α → Bool)
    (h : ∀ a, p a = true) : l.countP p = l.length := by
  induction l with
  | nil => rfl
  | cons a l ih => simp [List.countP_cons, h, ih]

/-- The number of serial-bus byte exchanges an SPI transfer performs is two
header exchanges plus `max_bytes` loop exchanges. -/
theorem transfer_countP_spi (data_to_send : hal_aci_data_t) (peer : List Nat) :
    (m_aci_spi_transfer data_to_send peer).trace.countP TLEvent.isSpiByte =
      2 + m_max_bytes (bufGet data_to_send.buffer 0) (peer.getD 1 0) := by
  simp [m_aci_spi_transfer, List.countP_cons, List.countP_append,
    List.countP_map, TLEvent.isSpiByte, Function.comp]
  rw [countP_const_true, List.length_range]
  · omega
  · intro a
    rfl

/-! ### Claim theorems -/

/-- C1: For every exchange performed by `m_aci_spi_transfer` with outgoing
declared length `L1 = data_to_send->buffer[0]` and peer-declared incoming
length `L2 = received_data->buffer[0]`, the number of payload byte pairs
exchanged after the first two bytes equals
`clamp(max(L2, max(L1 - 1, 0)), 0, MAX_LENGTH)` — in `Nat`,
`min (max L2 (L1 - 1)) HAL_ACI_MAX_LENGTH` — so the total number of bus
exchanges is that count plus the two header bytes; `L1 = 0` makes the
unclamped `max_bytes` equal `L2`; and the function returns `true` exactly
when the count is positive. -/
theorem C1_transfer_pair_count (data_to_send : hal_aci_data_t) (peer : List Nat) :
    (m_aci_spi_transfer data_to_send peer).pairs.length =
      min (max (peer.getD 1 0) (bufGet data_to_send.buffer 0 - 1))
        HAL_ACI_MAX_LENGTH ∧
    (m_aci_spi_transfer data_to_send peer).trace.countP TLEvent.isSpiByte =
      2 + min (max (peer.getD 1 0) (bufGet data_to_send.buffer 0 - 1))
        HAL_ACI_MAX_LENGTH ∧
    (bufGet data_to_send.buffer 0 = 0 →
      m_max_bytes_raw (bufGet data_to_send.buffer 0) (peer.getD 1 0) =
        peer.getD 1 0) ∧
    (m_aci_spi_transfer data_to_send peer).ret =
      decide (0 < min (max (peer.getD 1 0) (bufGet data_to_send.buffer 0 - 1))
        HAL_ACI_MAX_LENGTH) := by
  refine ⟨?_, ?_, ?_, ?_⟩
  · simp [m_aci_spi_transfer, m_max_bytes_eq]
  · rw [transfer_countP_spi, m_max_bytes_eq]
  · intro h
    simp [m_max_bytes_raw, h]
  · simp only [m_aci_spi_transfer]
    rw [m_max_bytes_eq]

/-- Witness for C1 at `L1 = 0`, `L2 = 5`: five payload pairs, `true` returned. -/
theorem C1_transfer_pair_count_witness :
    (m_aci_spi_transfer ⟨0, List.replicate 32 0⟩ [0, 5]).pairs.length = 5 ∧
    (m_aci_spi_transfer ⟨0, List.replicate 32 0⟩ [0, 5]).ret = true := by
  have h := C1_transfer_pair_count ⟨0, List.replicate 32 0⟩ [0, 5]
  refine ⟨h.1.trans (by decide), h.2.2.2.trans (by decide)⟩

/-- C2: the fatal `while(1)` branch of `m_aci_event_check` is unreachable: the
routine returns early unless the inbound queue has room, the inbound queue is
untouched between that check and the post-exchange enqueue, and an enqueue
into a non-full queue succeeds, so `halted` is `false` on every input. -/
theorem C2_fatal_halt_unreachable (st : TLState) (rdyn_high : Bool)
    (peer : List Nat) :
    (m_aci_event_check st rdyn_high peer).halted = false := by
  unfold m_aci_event_check
  split
  · rfl
  · split
    · split <;> rfl
    · rename_i hfull _
      simp only [Bool.not_eq_true] at hfull
      dsimp only
      rw [enqueue_not_full _ _ hfull]
      split <;> rfl

/-- C4: `hal_aci_tl_send` on a packet whose length byte exceeds
`HAL_ACI_MAX_LENGTH` returns `false`, leaves the whole state (in particular the
outbound queue) unchanged, and emits no event (no enqueue, no line write). -/
theorem C4_send_oversized_rejected (st : TLState) (p_aci_cmd : hal_aci_data_t)
    (h : HAL_ACI_MAX_LENGTH < bufGet p_aci_cmd.buffer 0) :
    hal_aci_tl_send st p_aci_cmd = ⟨st, [], false⟩ := by
  unfold hal_aci_tl_send
  rw [if_pos h]

/-- Witness for C4: a packet with length byte 32 is rejected without effect. -/
theorem C4_send_oversized_rejected_witness :
    hal_aci_tl_send ⟨[], [], false⟩ ⟨0, 32 :: List.replicate 31 0⟩ =
      ⟨⟨[], [], false⟩, [], false⟩ :=
  C4_send_oversized_rejected ⟨[], [], false⟩ ⟨0, 32 :: List.replicate 31 0⟩
    (by decide)

/-- C5: when the inbound queue is full, `m_aci_event_check` mutates nothing:
the state (both queues and the request line) is returned unchanged and the
trace holds only the entry marker — no line write, no bus exchange, no
enqueue. -/
theorem C5_poll_full_inbound_no_mutation (st : TLState) (rdyn_high : Bool)
    (peer : List Nat) (h : aci_queue_is_full st.rx_q = true) :
    (m_aci_event_check st rdyn_high peer).st = st ∧
    (m_aci_event_check st rdyn_high peer).trace = [TLEvent.checkRun] := by
  unfold m_aci_event_check
  rw [if_pos h]
  exact ⟨rfl, rfl⟩

/-- Witness for C5: inbound queue filled to capacity 4, poll changes nothing. -/
theorem C5_poll_full_inbound_no_mutation_witness :
    (m_aci_event_check ⟨[], List.replicate 4 emptyPlaceholder, false⟩ false
        []).st = ⟨[], List.replicate 4 emptyPlaceholder, false⟩ ∧
    (m_aci_event_check ⟨[], List.replicate 4 emptyPlaceholder, false⟩ false
        []).trace = [TLEvent.checkRun] :=
  C5_poll_full_inbound_no_mutation ⟨[], List.replicate 4 emptyPlaceholder,
    false⟩ false [] (by decide)

/-- C3 (amended): the packet the poll routine enqueues into the inbound queue
carries, as its length byte, exactly the raw byte the peer declared; hence,
provided the peer declares a length of at most `HAL_ACI_MAX_LENGTH`, every
packet in the inbound queue after a poll either was already there or satisfies
`length <= MAX_LENGTH`. (The code does not clamp the stored length byte, so the
invariant does not hold for a peer declaring more — see the counterexample.) -/
theorem C3_inbound_length_invariant (st : TLState) (rdyn_high : Bool)
    (peer : List Nat) (hpeer : peer.getD 1 0 ≤ HAL_ACI_MAX_LENGTH) :
    ∀ p ∈ (m_aci_event_check st rdyn_high peer).st.rx_q,
      p ∈ st.rx_q ∨ bufGet p.buffer 0 ≤ HAL_ACI_MAX_LENGTH := by
  unfold m_aci_event_check
  split
  · intro p hp
    exact Or.inl hp
  · split
    · split <;> (intro p hp; exact Or.inl hp)
    · rename_i hfull _
      simp only [Bool.not_eq_true] at hfull
      dsimp only
      rw [enqueue_not_full _ _ hfull]
      split
      · intro p hp
        dsimp only at hp
        rcases List.mem_append.mp hp with hmem | hmem
        · exact Or.inl hmem
        · right
          rw [List.mem_singleton.mp hmem]
          simpa [m_aci_spi_transfer, bufGet] using hpeer
      · intro p hp
        exact Or.inl hp

/-- Counterexample to C3 as stated: with empty queues and a ready peer that
declares incoming length 32, the poll routine enqueues into the inbound queue a
packet whose length byte is 32 > `HAL_ACI_MAX_LENGTH` — the stored Packet
violates the `length <= MAX_LENGTH` invariant. -/
theorem C3_raw_peer_length_counterexample :
    ((m_aci_event_check ⟨[], [], false⟩ false [0, 32]).st.rx_q.getD 0
        emptyPlaceholder).buffer.getD 0 0 = 32 ∧
    (m_aci_event_check ⟨[], [], false⟩ false [0, 32]).st.rx_q.length = 1 ∧
    HAL_ACI_MAX_LENGTH < 32 := by decide

/-- Witness for C3 (amended): with a peer declaring length 5, the packet found
in the inbound queue after the poll satisfies the invariant. -/
theorem C3_inbound_length_invariant_witness :
    (m_aci_event_check ⟨[], [], false⟩ false [0, 5]).st.rx_q.getD 0
        emptyPlaceholder ∈ ([] : List hal_aci_data_t) ∨
    bufGet ((m_aci_event_check ⟨[], [], false⟩ false [0, 5]).st.rx_q.getD 0
        emptyPlaceholder).buffer 0 ≤ HAL_ACI_MAX_LENGTH :=
  C3_inbound_length_invariant ⟨[], [], false⟩ false [0, 5] (by decide) _
    (by decide)

/-- The SPI transfer's trace is some prefix followed by the final REQN
deassert, and nothing in the prefix is an inbound-queue enqueue. -/
theorem transfer_trace_decomp (d : hal_aci_data_t) (peer : List Nat) :
    ∃ front, (m_aci_spi_transfer d peer).trace =
        front ++ [TLEvent.reqnDisable] ∧
      ∀ e ∈ front, e.isRxEnqueue = false := by
  refine ⟨[TLEvent.reqnEnable,
    TLEvent.spiByte (bufGet d.buffer 0) (peer.getD 0 0),
    TLEvent.spiByte (bufGet d.buffer 1) (peer.getD 1 0)] ++
    (m_aci_spi_transfer d peer).pairs.map
      (fun q => TLEvent.spiByte q.1 q.2), ?_, ?_⟩
  · simp [m_aci_spi_transfer]
  · intro e he
    simp only [List.mem_append, List.mem_cons, List.mem_map,
      List.not_mem_nil, or_false] at he
    rcases he with (rfl | rfl | rfl) | ⟨q, _, rfl⟩ <;> rfl

/-- C6: for every poll that performs an exchange (inbound queue has room and
RDYN is low), the trace splits at the final REQN deassert emitted by the
transfer: no inbound enqueue precedes it, no serial-bus exchange follows it,
and when the outbound queue still has entries after the dequeue the very next
event is the REQN reassert (pipelining) — before any received packet is
enqueued; the final request-line level equals that pipelining condition. -/
theorem C6_exchange_line_protocol (st : TLState) (peer : List Nat)
    (h : aci_queue_is_full st.rx_q = false) :
    ∃ pre post,
      (m_aci_event_check st false peer).trace =
        pre ++ TLEvent.reqnDisable :: post ∧
      (∀ e ∈ pre, e.isRxEnqueue = false) ∧
      (∀ e ∈ post, e.isSpiByte = false) ∧
      (aci_queue_is_empty (txAfterDequeue st.tx_q) = false →
        post.head? = some TLEvent.reqnEnable) ∧
      (m_aci_event_check st false peer).st.reqn_low =
        !aci_queue_is_empty (txAfterDequeue st.tx_q) := by
  obtain ⟨front, hfront, hfr⟩ :=
    transfer_trace_decomp (dequeuedOrPlaceholder st.tx_q) peer
  unfold m_aci_event_check
  rw [h]
  simp only [Bool.false_eq_true, if_false, Bool.not_false, Bool.true_and]
  by_cases hrecv : 0 < bufGet
      (m_aci_spi_transfer (dequeuedOrPlaceholder st.tx_q) peer
        ).received_data.buffer 0
  · rw [if_pos hrecv, enqueue_not_full _ _ h]
    refine ⟨TLEvent.checkRun :: front,
      (if (!aci_queue_is_empty (txAfterDequeue st.tx_q)) = true then
          [TLEvent.reqnEnable] else []) ++
        [TLEvent.rxEnqueue (m_aci_spi_transfer (dequeuedOrPlaceholder
          st.tx_q) peer).received_data],
      ?_, ?_, ?_, ?_, ?_⟩
    · rw [hfront]
      simp
    · intro e he
      rcases List.mem_cons.mp he with rfl | hm
      · rfl
      · exact hfr e hm
    · intro e he
      rcases List.mem_append.mp he with hm | hm
      · split at hm
        · rw [List.mem_singleton.mp hm]
          rfl
        · exact absurd hm (List.not_mem_nil e)
      · rw [List.mem_singleton.mp hm]
        rfl
    · intro hemp
      rw [if_pos (by rw [hemp]; rfl)]
      rfl
    · rfl
  · rw [if_neg hrecv]
    refine ⟨TLEvent.checkRun :: front,
      if (!aci_queue_is_empty (txAfterDequeue st.tx_q)) = true then
        [TLEvent.reqnEnable] else [],
      ?_, ?_, ?_, ?_, ?_⟩
    · rw [hfront]
      simp
    · intro e he
      rcases List.mem_cons.mp he with rfl | hm
      · rfl
      · exact hfr e hm
    · intro e he
      split at he
      · rw [List.mem_singleton.mp he]
        rfl
      · exact absurd he (List.not_mem_nil e)
    · intro hemp
      rw [if_pos (by rw [hemp]; rfl)]
      rfl
    · rfl

/-- Witness for C6: with two queued outbound packets and a ready peer, the
request line is reasserted (pipelining) after the exchange. -/
theorem C6_exchange_line_protocol_witness :
    (m_aci_event_check ⟨[⟨0, [1]⟩, ⟨0, [2]⟩], [], false⟩ false
        [0, 1]).st.reqn_low = true := by
  obtain ⟨pre, post, -, -, -, -, h5⟩ :=
    C6_exchange_line_protocol ⟨[⟨0, [1]⟩, ⟨0, [2]⟩], [], false⟩ [0, 1]
      (by decide)
  exact h5.trans (by decide)

/-- C7 (amended): in the transmit/receive loop, iteration `i` sends exactly the
byte residing at `data_to_send->buffer[2 + i]` — whatever it is, also past the
outgoing packet's declared length; the code never substitutes zero — and the
byte received is stored into `received_data->buffer[1 + i]`. -/
theorem C7_loop_send_recv (data_to_send : hal_aci_data_t) (peer : List Nat)
    (i : Nat)
    (hi : i < m_max_bytes (bufGet data_to_send.buffer 0) (peer.getD 1 0)) :
    (m_aci_spi_transfer data_to_send peer).pairs.get? i =
      some (bufGet data_to_send.buffer (2 + i), peer.getD (2 + i) 0) ∧
    bufGet (m_aci_spi_transfer data_to_send peer).received_data.buffer (1 + i) =
      peer.getD (2 + i) 0 := by
  have hi2 : i < m_max_bytes (data_to_send.buffer.getD 0 0) (peer.getD 1 0) :=
    hi
  constructor
  · simp only [m_aci_spi_transfer]
    rw [List.get?_map, List.get?_range hi]
    rfl
  · simp only [m_aci_spi_transfer, bufGet]
    rw [Nat.add_comm 1 i, List.getD_append]
    · rw [List.getD_cons_succ, List.getD_eq_getD_get?, List.get?_map,
        List.get?_map, List.get?_range hi2]
      rfl
    · simp only [List.length_cons, List.length_map, List.length_range]
      omega

/-- Counterexample to C7 as stated: an outgoing packet with declared length 1
and the stale byte 5 at `buffer[2]`, against a peer declaring length 2: loop
iteration 0 addresses the payload past the declared length, yet the byte sent
on the bus is 5, not the zero the claim requires. -/
theorem C7_zero_fill_counterexample :
    bufGet (⟨0, 1 :: 10 :: 5 :: List.replicate 29 0⟩ : hal_aci_data_t).buffer
        0 = 1 ∧
    (m_aci_spi_transfer ⟨0, 1 :: 10 :: 5 :: List.replicate 29 0⟩
        [0, 2]).pairs.getD 0 (0, 0) = (5, 0) ∧
    (5 : Nat) ≠ 0 := by decide

/-- Witness for C7 (amended): outgoing length 3, peer length 2 — loop
iteration 0 sends `buffer[2] = 8` and stores the received byte 20 into
`received_data->buffer[1]`. -/
theorem C7_loop_send_recv_witness :
    (m_aci_spi_transfer ⟨0, 3 :: 7 :: 8 :: 9 :: List.replicate 28 0⟩
        [1, 2, 20, 21]).pairs.get? 0 = some (8, 20) ∧
    bufGet (m_aci_spi_transfer ⟨0, 3 :: 7 :: 8 :: 9 :: List.replicate 28 0⟩
        [1, 2, 20, 21]).received_data.buffer (1 + 0) = 20 :=
  C7_loop_send_recv ⟨0, 3 :: 7 :: 8 :: 9 :: List.replicate 28 0⟩
    [1, 2, 20, 21] 0 (by decide)

/-- Every run of `m_aci_event_check` leaves the entry marker in its trace. -/
theorem checkRun_mem_check_trace (st : TLState) (rdyn_high : Bool)
    (peer : List Nat) :
    TLEvent.checkRun ∈ (m_aci_event_check st rdyn_high peer).trace := by
  unfold m_aci_event_check
  split
  · simp
  · split
    · split <;> simp
    · dsimp only
      split
      · split <;> simp
      · simp

/-- C8 (amended): `hal_aci_tl_event_get` runs the internal check routine
`m_aci_event_check` whenever the inbound queue is not full, but
`hal_aci_tl_send` never runs it — the source of `hal_aci_tl_send` contains no
call to `m_aci_event_check`, so not every public entry point polls. -/
theorem C8_entry_points_poll (st : TLState) (rdyn_high : Bool)
    (peer : List Nat) (p_aci_cmd : hal_aci_data_t)
    (h : aci_queue_is_full st.rx_q = false) :
    TLEvent.checkRun ∈ (hal_aci_tl_event_get st rdyn_high peer).trace ∧
    TLEvent.checkRun ∉ (hal_aci_tl_send st p_aci_cmd).trace := by
  constructor
  · unfold hal_aci_tl_event_get
    rw [h]
    dsimp only
    exact List.mem_append.mpr (Or.inl (checkRun_mem_check_trace st rdyn_high
      peer))
  · unfold hal_aci_tl_send
    dsimp only
    repeat' split
    all_goals simp

/-- Counterexample to C8 as stated: a successful `hal_aci_tl_send` call whose
trace never enters `m_aci_event_check` — the send path does not poll. -/
theorem C8_send_no_poll_counterexample :
    (hal_aci_tl_send ⟨[], [], false⟩ ⟨0, [1]⟩).ret = true ∧
    TLEvent.checkRun ∉ (hal_aci_tl_send ⟨[], [], false⟩ ⟨0, [1]⟩).trace := by
  constructor
  · decide
  · decide

/-- Witness for C8 (amended) at empty queues. -/
theorem C8_entry_points_poll_witness :
    TLEvent.checkRun ∈ (hal_aci_tl_event_get ⟨[], [], false⟩ true []).trace ∧
    TLEvent.checkRun ∉ (hal_aci_tl_send ⟨[], [], false⟩ ⟨0, [1]⟩).trace :=
  C8_entry_points_poll ⟨[], [], false⟩ true [] ⟨0, [1]⟩ (by decide)

/-- When the dequeue phase of `hal_aci_tl_event_get` succeeds and afterwards
the inbound queue is not full while the outbound queue is non-empty, the
request line has been asserted and the reassert was emitted. -/
theorem event_get_dequeue_spec (st1 : TLState) (p : hal_aci_data_t)
    (hret : (event_get_dequeue st1).ret = some p)
    (hfull : aci_queue_is_full (event_get_dequeue st1).st.rx_q = false)
    (hempty : aci_queue_is_empty (event_get_dequeue st1).st.tx_q = false) :
    (event_get_dequeue st1).st.reqn_low = true ∧
    (event_get_dequeue st1).trace = [TLEvent.reqnEnable] := by
  cases hdq : aci_queue_dequeue st1.rx_q with
  | none =>
    simp only [event_get_dequeue, hdq] at hret
    exact absurd hret (by simp)
  | some pr =>
    simp only [event_get_dequeue, hdq] at hfull hempty ⊢
    by_cases hc :
        (!aci_queue_is_full pr.2 && !aci_queue_is_empty st1.tx_q) = true
    · rw [if_pos hc]
      exact ⟨rfl, rfl⟩
    · rw [if_neg hc] at hfull hempty
      dsimp only at hfull hempty
      simp only [Bool.and_eq_true, Bool.not_eq_true'] at hc
      exact absurd ⟨hfull, hempty⟩ hc

/-- C9 (amended): if the dequeue of `hal_aci_tl_event_get` succeeds and room
remains in the inbound queue and the outbound queue is non-empty, the request
line is reasserted before the call returns (the reassert is the last event);
if the dequeue fails, the dequeue phase returns failure having touched nothing
after the internal poll — the poll run first may itself assert the request
line (see the counterexample), so "asserts no line" holds of the dequeue
phase, not of the whole call. -/
theorem C9_receive_reassert_or_noop (st st1 : TLState) (rdyn_high : Bool)
    (peer : List Nat) (p : hal_aci_data_t) :
    ((hal_aci_tl_event_get st rdyn_high peer).ret = some p →
      aci_queue_is_full (hal_aci_tl_event_get st rdyn_high peer).st.rx_q =
        false →
      aci_queue_is_empty (hal_aci_tl_event_get st rdyn_high peer).st.tx_q =
        false →
      (hal_aci_tl_event_get st rdyn_high peer).st.reqn_low = true ∧
      (hal_aci_tl_event_get st rdyn_high peer).trace.getLast? =
        some TLEvent.reqnEnable) ∧
    (aci_queue_dequeue st1.rx_q = none →
      event_get_dequeue st1 = ⟨st1, [], none⟩) := by
  constructor
  · intro hret hfull hempty
    unfold hal_aci_tl_event_get at hret hfull hempty ⊢
    dsimp only at hret hfull hempty ⊢
    have key := event_get_dequeue_spec _ p hret hfull hempty
    refine ⟨key.1, ?_⟩
    rw [key.2, List.getLast?_concat]
  · intro hdq
    simp [event_get_dequeue, hdq]

/-- Counterexample to C9's failure clause as stated: outbound backlog, empty
inbound queue, peer not ready — the call returns failure, yet its internal
poll asserted the request line during the call. -/
theorem C9_line_after_failed_dequeue_counterexample :
    (hal_aci_tl_event_get ⟨[⟨0, [1]⟩], [], false⟩ true []).ret = none ∧
    TLEvent.reqnEnable ∈
      (hal_aci_tl_event_get ⟨[⟨0, [1]⟩], [], false⟩ true []).trace := by
  constructor
  · decide
  · decide

/-- Witness for C9 (amended): one inbound event, one pending outbound packet —
the receive dequeues, reasserts the request line last, and the empty-state
dequeue phase is a no-op. -/
theorem C9_receive_reassert_or_noop_witness :
    (hal_aci_tl_event_get ⟨[⟨0, [2]⟩], [⟨0, [1]⟩], false⟩ true
        []).st.reqn_low = true ∧
    (hal_aci_tl_event_get ⟨[⟨0, [2]⟩], [⟨0, [1]⟩], false⟩ true
        []).trace.getLast? = some TLEvent.reqnEnable ∧
    event_get_dequeue ⟨[], [], false⟩ = ⟨⟨[], [], false⟩, [], none⟩ := by
  have h := C9_receive_reassert_or_noop ⟨[⟨0, [2]⟩], [⟨0, [1]⟩], false⟩
    ⟨[], [], false⟩ true [] ⟨0, [1]⟩
  exact ⟨(h.1 (by decide) (by decide) (by decide)).1,
    (h.1 (by decide) (by decide) (by decide)).2, h.2 (by decide)⟩

/-- A checked read loop that starts inside the buffer but runs past its end
returns `none`. -/
theorem readLoopChecked_oob (buf : List Nat) (n : Nat) :
    ∀ start, start ≤ buf.length → buf.length < start + n →
      readLoopChecked buf start n = none := by
  induction n with
  | zero =>
    intro start h1 h2
    omega
  | succ n ih =>
    intro start h1 h2
    unfold readLoopChecked
    rcases Nat.lt_or_ge start buf.length with hlt | hge
    · rw [List.get?_eq_get hlt]
      dsimp only
      rw [ih (start + 1) (by omega) (by omega)]
    · rw [List.get?_eq_none.mpr (by omega)]

/-- C10: whenever the peer declares an incoming length of `HAL_ACI_MAX_LENGTH`
or more (a legal maximum-length event included), the negotiated `max_bytes` is
exactly `HAL_ACI_MAX_LENGTH`, the transmit loop's final read is of
`data_to_send->buffer[32]` — one element past the end of the 32-byte buffer of
`hal_aci_data_t` — and the `Option`-returning checked embedding of the
transfer reaches its out-of-bounds branch. -/
theorem C10_transmit_loop_oob_read (data_to_send : hal_aci_data_t)
    (peer : List Nat)
    (hlen : data_to_send.buffer.length = HAL_ACI_MAX_LENGTH + 1)
    (hL2 : HAL_ACI_MAX_LENGTH ≤ peer.getD 1 0) :
    m_max_bytes (bufGet data_to_send.buffer 0) (peer.getD 1 0) =
      HAL_ACI_MAX_LENGTH ∧
    (m_aci_spi_transfer data_to_send peer).readIdx.getLast? =
      some (HAL_ACI_MAX_LENGTH + 1) ∧
    data_to_send.buffer.get? (HAL_ACI_MAX_LENGTH + 1) = none ∧
    m_aci_spi_transfer_checked data_to_send peer = none := by
  have hmb : m_max_bytes (bufGet data_to_send.buffer 0) (peer.getD 1 0) =
      HAL_ACI_MAX_LENGTH := by
    rw [m_max_bytes_eq]
    unfold HAL_ACI_MAX_LENGTH at hL2 ⊢
    omega
  refine ⟨hmb, ?_, ?_, ?_⟩
  · simp only [m_aci_spi_transfer]
    rw [hmb]
    decide
  · apply List.get?_eq_none.mpr
    rw [hlen]
  · unfold m_aci_spi_transfer_checked
    rw [hmb]
    apply readLoopChecked_oob
    · exact Nat.zero_le _
    · rw [hlen]
      decide

/-- Witness for C10: the empty outgoing packet against a peer declaring the
legal maximum length 31 — the final read index is 32, out of bounds. -/
theorem C10_transmit_loop_oob_read_witness :
    m_max_bytes (bufGet (⟨0, List.replicate 32 0⟩ : hal_aci_data_t).buffer 0)
        ([0, 31].getD 1 0) = HAL_ACI_MAX_LENGTH ∧
    (m_aci_spi_transfer ⟨0, List.replicate 32 0⟩ [0, 31]).readIdx.getLast? =
      some (HAL_ACI_MAX_LENGTH + 1) ∧
    (⟨0, List.replicate 32 0⟩ : hal_aci_data_t).buffer.get?
      (HAL_ACI_MAX_LENGTH + 1) = none ∧
    m_aci_spi_transfer_checked ⟨0, List.replicate 32 0⟩ [0, 31] = none :=
  C10_transmit_loop_oob_read ⟨0, List.replicate 32 0⟩ [0, 31] (by decide)
    (by decide)
